import Mathlib

/-!
# BugSeek analysis core — shallow embedding and verification

This file embeds the analysis core of the BugSeek repository in Lean 4 and
proves properties of it:

* `ErrorPatternRecognizer.recognize_patterns` (backend/ai_services.py),
* `OpenAIService._make_chat_request` retry loop and its usage accounting
  (backend/ai_services.py, backend/models.py),
* `AIAnalysisService.analyze_error_log` status lifecycle (backend/ai_services.py),
* `find_similar_logs` similarity scoring, filtering, sorting and persistence
  (backend/services.py).

Python floats are modelled as exact rationals (`ℚ`); Python dicts with a fixed
field set become structures; database rows become records threaded through the
functions; the external HTTP service is an oracle giving the outcome of each
attempt.  Python string lowering is modelled by `Char.toLower` (all trigger
patterns in the source are ASCII, where the two agree).
-/

namespace BugSeek

/-! ## Pattern recognizer (backend/ai_services.py, ErrorPatternRecognizer) -/

/-- One entry of `ErrorPatternRecognizer.ERROR_PATTERNS`: a rule name, its
trigger regexes (the only regex metacharacter used in the source table is `.`),
a category, a severity tier and a description. -/
structure PatternRule where
  name : String
  patterns : List String
  category : String
  severity : String
  description : String
deriving DecidableEq, Repr

/-- One element of the `matched_patterns` list built by `recognize_patterns`. -/
structure PatternMatchR where
  name : String
  category : String
  severity : String
  description : String
deriving DecidableEq, Repr

/-- Result dict of `recognize_patterns`. -/
structure RecognizeResult where
  success : Bool
  matchedPatterns : List PatternMatchR
  primaryPattern : Option String
  primaryCategory : String
  estimatedSeverity : String
  patternCount : Nat
deriving DecidableEq, Repr

/-- `ERROR_PATTERNS` table, in Python dict declaration order (dict iteration
order is insertion order). -/
def ERROR_PATTERNS : List PatternRule :=
  [ ⟨"kernel_panic", ["kernel panic", "oops:", "unable to handle kernel"],
      "kernel", "critical", "Kernel panic or critical kernel error"⟩,
    ⟨"segmentation_fault", ["segmentation fault", "sigsegv", "signal 11"],
      "memory", "high", "Memory access violation"⟩,
    ⟨"out_of_memory", ["out of memory", "oom killer", "memory allocation failed"],
      "memory", "high", "System out of memory"⟩,
    ⟨"buffer_overflow", ["buffer overflow", "stack smashing", "heap overflow"],
      "security", "critical", "Buffer overflow vulnerability"⟩,
    ⟨"device_not_found", ["device not found", "no such device", "device or resource busy"],
      "hardware", "medium", "Hardware device access issue"⟩,
    ⟨"io_error", ["i/o error", "input/output error", "read-only file system"],
      "filesystem", "high", "File system I/O error"⟩,
    ⟨"permission_denied", ["permission denied", "access denied", "operation not permitted"],
      "security", "medium", "File or resource access permission error"⟩,
    ⟨"network_error", ["network is unreachable", "connection refused", "network down"],
      "network", "medium", "Network connectivity issue"⟩,
    ⟨"watchdog_timeout", ["watchdog timeout", "watchdog bite", "hardware watchdog"],
      "hardware", "high", "Hardware watchdog timeout"⟩,
    ⟨"android_anr", ["anr", "application not responding", "input dispatching timed out"],
      "android", "medium", "Android Application Not Responding"⟩,
    ⟨"java_exception", ["exception in thread", "java.lang.", "caused by:"],
      "application", "medium", "Java application exception"⟩ ]

/-- `re.search` pattern-at-position test for the trigger patterns of the table:
`.` matches any character, every other character matches itself. -/
def patMatchAt : List Char → List Char → Bool
  | [], _ => true
  | _ :: _, [] => false
  | p :: ps, c :: cs => (p = '.' || p = c) && patMatchAt ps cs

/-- `re.search`: the pattern matches at some position of the text. -/
def patSearch (p : List Char) : List Char → Bool
  | [] => patMatchAt p []
  | c :: cs => patMatchAt p (c :: cs) || patSearch p cs

/-- `log_content.lower()` as used before matching. -/
def pyLower (s : String) : List Char := s.data.map Char.toLower

/-- The inner `for pattern_regex in pattern_info['patterns']` loop with its
`break`: the rule matches if any of its triggers matches. -/
def ruleMatches (r : PatternRule) (lowered : List Char) : Bool :=
  r.patterns.any fun p => patSearch p.data lowered

/-- `_compare_severity`'s numeric severity order (unknown tiers map to 2). -/
def severityOrder (s : String) : Int :=
  if s = "low" then 1 else if s = "medium" then 2
  else if s = "high" then 3 else if s = "critical" then 4 else 2

/-- `_compare_severity(sev1, sev2)`. -/
def compareSeverity (sev1 sev2 : String) : Int :=
  severityOrder sev1 - severityOrder sev2

/-- The `matched_patterns` element built from a rule. -/
def toMatchR (r : PatternRule) : PatternMatchR :=
  ⟨r.name, r.category, r.severity, r.description⟩

/-- The `for pattern_name, pattern_info in cls.ERROR_PATTERNS.items()` loop of
`recognize_patterns`: accumulates matched rules in table order and tracks the
highest severity seen (strictly-greater updates only) with its category. -/
def recogScan (lowered : List Char) :
    List PatternRule → String → String → List PatternMatchR × String × String
  | [], hi, cat => ([], hi, cat)
  | r :: rs, hi, cat =>
    if ruleMatches r lowered then
      let next := if compareSeverity r.severity hi > 0 then (r.severity, r.category) else (hi, cat)
      let rest := recogScan lowered rs next.1 next.2
      (toMatchR r :: rest.1, rest.2)
    else
      recogScan lowered rs hi cat

/-- `ErrorPatternRecognizer.recognize_patterns`. -/
def recognize_patterns (logContent : String) : RecognizeResult :=
  let lowered := pyLower logContent
  let scan := recogScan lowered ERROR_PATTERNS "low" "general"
  { success := true
    matchedPatterns := scan.1
    primaryPattern := scan.1.head?.map (·.name)
    primaryCategory := scan.2.2
    estimatedSeverity := scan.2.1
    patternCount := scan.1.length }

/-! ## AIClient chat request with retries (OpenAIService._make_chat_request) -/

/-- Outcome of one `requests.post` attempt, as seen by the retry loop:
HTTP 200, a non-2xx HTTP status, `requests.exceptions.Timeout`, or any other
network-level exception (e.g. a connection error), which the inner loop does
not catch. -/
inductive AttemptOutcome where
  | ok (tokens : Nat)
  | httpError (code : Nat)
  | timeout
  | connError
deriving DecidableEq, Repr

/-- The dict returned by `_make_chat_request`, restricted to the fields the
properties need.  `tokensRecorded = some t` means the 200 branch ran
`_update_usage_stats(t)` before returning; `attemptsMade` counts the
`requests.post` calls issued (a call that raises still counts as made). -/
structure ChatRes where
  success : Bool
  attemptsMade : Nat
  tokensRecorded : Option Nat
  errorMsg : Option String
deriving DecidableEq, Repr

/-- Whether an outcome is one the inner loop retries (non-2xx status or a
caught `Timeout`). -/
def isRetryableFailure : AttemptOutcome → Bool
  | .httpError _ => true
  | .timeout => true
  | _ => false

/-- The body of `for attempt in range(self.max_retries)` in
`_make_chat_request`, with the outcome of attempt `i` given by `o i`:
a 200 returns success at once; a non-2xx or a timeout returns failure on the
last iteration and otherwise sleeps and retries; any other exception escapes
to the enclosing `except Exception` which returns failure immediately.
`fuel` is the number of loop iterations left (`maxRetries - attempt`). -/
def chatGo (o : Nat → AttemptOutcome) (maxRetries : Nat) : Nat → Nat → Option ChatRes
  | _, 0 => none
  | attempt, fuel + 1 =>
    match o attempt with
    | .ok t => some ⟨true, attempt + 1, some t, none⟩
    | .httpError _ =>
      if attempt = maxRetries - 1 then
        some ⟨false, attempt + 1, none, some "HTTP error"⟩
      else chatGo o maxRetries (attempt + 1) fuel
    | .timeout =>
      if attempt = maxRetries - 1 then
        some ⟨false, attempt + 1, none, some "Request timeout"⟩
      else chatGo o maxRetries (attempt + 1) fuel
    | .connError => some ⟨false, attempt + 1, none, some "connection error"⟩

/-- `OpenAIService._make_chat_request` for a given `max_retries` and attempt
oracle.  `none` is Python's implicit `None` return, reachable only when
`max_retries = 0` and the loop body never runs. -/
def make_chat_request (maxRetries : Nat) (o : Nat → AttemptOutcome) : Option ChatRes :=
  chatGo o maxRetries 0 maxRetries

/-! ## Service status bookkeeping (backend/models.py, OpenAIStatus) -/

/-- The `OpenAIStatus` row, restricted to the fields the core updates
(timestamp columns other than `LastSuccessfulCall` are omitted;
`LastSuccessfulCall` is kept abstract as an optional tick). -/
structure OpenAIStatusRec where
  totalApiCalls : Nat
  totalTokensUsed : Nat
  estimatedTotalCost : ℚ
  isConnected : Bool
  lastErrorMessage : Option String
  lastSuccessfulCall : Option Nat
deriving DecidableEq, Repr

/-- `OpenAIStatus.increment_usage`. -/
def increment_usage (st : OpenAIStatusRec) (tokens : Nat) (cost : ℚ) : OpenAIStatusRec :=
  { st with
    totalApiCalls := st.totalApiCalls + 1
    totalTokensUsed := st.totalTokensUsed + tokens
    estimatedTotalCost := st.estimatedTotalCost + cost }

/-- `OpenAIService._update_usage_stats`: cost estimate is
`tokens_used * 0.00002`. -/
def update_usage_stats (st : OpenAIStatusRec) (tokens : Nat) : OpenAIStatusRec :=
  increment_usage st tokens ((tokens : ℚ) * (2 / 100000))

/-- `OpenAIStatus.update_connection_status(is_connected, error_message)` at an
abstract tick `now` (used only by `check_connection`, not by the chat loop). -/
def update_connection_status (st : OpenAIStatusRec) (isConnected : Bool)
    (errorMessage : Option String) (now : Nat) : OpenAIStatusRec :=
  { st with
    isConnected := isConnected
    lastSuccessfulCall := if isConnected then some now else st.lastSuccessfulCall
    lastErrorMessage := match errorMessage with
      | some m => some m
      | none => st.lastErrorMessage }

/-- `_make_chat_request` together with its effect on the `OpenAIStatus` row:
the 200 branch calls `_update_usage_stats`; no other branch touches the row. -/
def make_chat_request_status (maxRetries : Nat) (o : Nat → AttemptOutcome)
    (st : OpenAIStatusRec) : Option ChatRes × OpenAIStatusRec :=
  match make_chat_request maxRetries o with
  | some r =>
    (some r, match r.tokensRecorded with
      | some t => update_usage_stats st t
      | none => st)
  | none => (none, st)

/-! ## Analysis orchestration (AIAnalysisService.analyze_error_log) -/

/-- A pipeline step either returns its result dict or raises an exception that
escapes to `analyze_error_log`'s outer `except Exception` handler. -/
inductive StepOutcome (α : Type) where
  | ok (a : α)
  | raised (msg : String)
deriving DecidableEq, Repr

/-- The dict returned by `generate_summary`, restricted to the keys
`analyze_error_log` reads. -/
structure SummaryResult where
  success : Bool
  summary : String
  confidence : ℚ
  keywords : List String
  tokensUsed : Nat
deriving DecidableEq, Repr

/-- The dict returned by `suggest_solutions`, restricted to the keys
`analyze_error_log` reads. -/
structure SolutionResult where
  success : Bool
  solutions : List String
  tokensUsed : Nat
deriving DecidableEq, Repr

/-- The `AIAnalysisResult` row as written by `analyze_error_log`
(`Confidence` and `TokensUsed` have column default 0; text columns default to
NULL; timestamps are modelled as presence flags). -/
structure AnalysisRecord where
  crId : String
  analysisType : String
  status : String
  errorPattern : Option String
  errorCategory : Option String
  estimatedSeverity : Option String
  summary : Option String
  confidence : ℚ
  keywords : Option (List String)
  solutions : Option (List String)
  tokensUsed : Nat
  errorMessage : Option String
  hasStartTime : Bool
  hasEndTime : Bool
deriving DecidableEq, Repr

/-- The outer `except Exception` handler of `analyze_error_log`: the record
exists, so it is marked failed with the message and an end timestamp. -/
def analyzeFail (rec : AnalysisRecord) (msg : String) : AnalysisRecord × Bool :=
  ({ rec with status := "failed", errorMessage := some msg, hasEndTime := true }, false)

/-- `AIAnalysisService.analyze_error_log`, with the three pipeline steps given
as oracle outcomes (the pattern step is `recognize_patterns log_content` in the
source and never raises; it is kept as an oracle so that the handler is covered
for every step).  Returns the final `AIAnalysisResult` row and the returned
dict's `success` flag. -/
def analyze_error_log (crId : String) (modelUsed : String)
    (pat : StepOutcome RecognizeResult) (sum : StepOutcome SummaryResult)
    (sol : StepOutcome SolutionResult) : AnalysisRecord × Bool :=
  let rec0 : AnalysisRecord :=
    { crId := crId
      analysisType := "complete"
      status := "processing"
      errorPattern := none
      errorCategory := none
      estimatedSeverity := none
      summary := none
      confidence := 0
      keywords := none
      solutions := none
      tokensUsed := 0
      errorMessage := none
      hasStartTime := true
      hasEndTime := false }
  let _ := modelUsed
  match pat with
  | .raised msg => analyzeFail rec0 msg
  | .ok p =>
    let rec1 :=
      if p.success then
        { rec0 with
          errorPattern := p.primaryPattern
          errorCategory := some p.primaryCategory
          estimatedSeverity := some p.estimatedSeverity }
      else rec0
    match sum with
    | .raised msg => analyzeFail rec1 msg
    | .ok s =>
      let rec2 :=
        if s.success then
          { rec1 with
            summary := some s.summary
            confidence := s.confidence
            keywords := some s.keywords
            tokensUsed := rec1.tokensUsed + s.tokensUsed }
        else rec1
      match sol with
      | .raised msg => analyzeFail rec2 msg
      | .ok so =>
        let rec3 :=
          if so.success then
            { rec2 with
              solutions := some so.solutions
              tokensUsed := rec2.tokensUsed + so.tokensUsed }
          else rec2
        ({ rec3 with status := "completed", hasEndTime := true }, true)

/-! ## Similarity engine (backend/services.py, find_similar_logs) -/

/-- An `ErrorLog` row restricted to the fields `find_similar_logs` reads.
`Description` is a nullable column, so it is optional; Python truthiness makes
the empty string behave like NULL in the guards. -/
structure LogEntry where
  crId : String
  errorName : String
  module : String
  teamName : String
  description : Option String
deriving DecidableEq, Repr

/-- Helper for `description.lower().split()`: splits a lowered character list
on whitespace runs, dropping empty pieces, like Python `str.split()`. -/
def wordsAux : List Char → List Char → List String
  | [], acc => if acc = [] then [] else [String.mk acc.reverse]
  | c :: cs, acc =>
    if c.isWhitespace then
      if acc = [] then wordsAux cs [] else String.mk acc.reverse :: wordsAux cs []
    else wordsAux cs (c :: acc)

/-- `s.lower().split()`. -/
def pyWords (s : String) : List String := wordsAux (s.data.map Char.toLower) []

/-- `set(s.lower().split())`. -/
def wordSet (s : String) : Finset String := (pyWords s).toFinset

/-- The similarity score of the loop body of `find_similar_logs`, comparing a
candidate `lg` against `current_log = cur`: +0.3 for an identical `ErrorName`,
+0.2 for `Module`, +0.1 for `TeamName`, and `overlap * 0.4` where `overlap` is
`len(dw ∩ cw) / len(dw ∪ cw)` of the two descriptions' lowercase word sets —
the latter only when both descriptions are truthy and both word sets
nonempty (the `descTerm` clause below). -/
def descTerm : Option String → Option String → ℚ
  | some d, some c =>
    if d ≠ "" ∧ c ≠ "" then
      if (wordSet d).card ≠ 0 ∧ (wordSet c).card ≠ 0 then
        ((wordSet d ∩ wordSet c).card : ℚ) / ((wordSet d ∪ wordSet c).card : ℚ) * (4 / 10)
      else 0
    else 0
  | _, _ => 0

def similarityScore (cur lg : LogEntry) : ℚ :=
  (if lg.errorName = cur.errorName then 3 / 10 else 0)
  + (if lg.module = cur.module then 2 / 10 else 0)
  + (if lg.teamName = cur.teamName then 1 / 10 else 0)
  + descTerm lg.description cur.description

/-- The spec's similarity formula component: Jaccard similarity of two word
sets (`0` when both sets are empty, matching the convention `0 / 0 = 0`).
Modelled from the spec's words for comparison against `similarityScore`. -/
def jaccardSpec (A B : Finset String) : ℚ :=
  ((A ∩ B).card : ℚ) / ((A ∪ B).card : ℚ)

/-- `round(similarity_score, 2)`: Python 3 `round` at two decimal places,
half-to-even. -/
def roundQ2 (q : ℚ) : ℚ :=
  let scaled := q * 100
  let f : ℤ := ⌊scaled⌋
  let r := scaled - (f : ℚ)
  let n : ℤ :=
    if r < 1 / 2 then f
    else if 1 / 2 < r then f + 1
    else if f % 2 = 0 then f else f + 1
  (n : ℚ) / 100

/-- An element of the returned `similar_logs` list (identity fields plus the
rounded `SimilarityScore` the caller sees and sorting uses). -/
structure SimilarItem where
  entry : LogEntry
  similarity : ℚ
deriving DecidableEq, Repr

/-- A persisted `SimilarLogMatch` row (score stored unrounded). -/
structure MatchRec where
  sourceCrId : String
  targetCrId : String
  score : ℚ
  matchingMethod : String
  confidence : String
deriving DecidableEq, Repr

/-- The `ConfidenceLevel` expression of the persisted match:
`'high' if s > 0.8 else ('medium' if s > 0.6 else 'low')`. -/
def confidenceLevel (s : ℚ) : String :=
  if s > 8 / 10 then "high" else if s > 6 / 10 then "medium" else "low"

/-- The dict returned by `find_similar_logs`, plus the rows it persisted. -/
structure FindSimilarResult where
  success : Bool
  similarLogs : List SimilarItem
  totalFound : Nat
  thresholdUsed : ℚ
  persisted : List MatchRec
deriving DecidableEq, Repr

/-- Descending order on the stored (rounded) `SimilarityScore`, the key of
`similar_logs.sort(key=..., reverse=True)`. -/
def simGE (a b : SimilarItem) : Prop := b.similarity ≤ a.similarity

instance : DecidableRel simGE := fun a b =>
  inferInstanceAs (Decidable (b.similarity ≤ a.similarity))

instance : IsTotal SimilarItem simGE := ⟨fun a b => le_total b.similarity a.similarity⟩

instance : IsTrans SimilarItem simGE := ⟨fun _ _ _ h1 h2 => le_trans h2 h1⟩

/-- `find_similar_logs` over a caller-supplied candidate pool (the source
fetches up to 100 rows with `Cr_ID != cr_id`): scores each candidate, keeps
those with `score >= threshold` (appending an item with the rounded score and
persisting a match with the unrounded score), sorts the kept items descending
by their stored score, and returns the top 10 together with the uncapped
count. -/
def find_similar_logs (cur : LogEntry) (logs : List LogEntry) (threshold : ℚ) :
    FindSimilarResult :=
  let passing := logs.filter fun lg => threshold ≤ similarityScore cur lg
  let items := passing.map fun lg => SimilarItem.mk lg (roundQ2 (similarityScore cur lg))
  let matchRows := passing.map fun lg =>
    MatchRec.mk cur.crId lg.crId (similarityScore cur lg) "heuristic"
      (confidenceLevel (similarityScore cur lg))
  { success := true
    similarLogs := (items.insertionSort simGE).take 10
    totalFound := passing.length
    thresholdUsed := threshold
    persisted := matchRows }

/-- A concrete status row used by witnesses: all counters zero, currently
marked connected, no error recorded. -/
def stEx : OpenAIStatusRec := ⟨0, 0, 0, true, none, none⟩

/-- The running example: two incidents sharing error name, module and team,
with three-word descriptions overlapping in two words (Jaccard 2/4 = 1/2). -/
def curEx : LogEntry := ⟨"A", "E", "M", "T", some "a b c"⟩

/-- Candidate incident paired with `curEx` (see there). -/
def candEx : LogEntry := ⟨"B", "E", "M", "T", some "a b d"⟩

/-! ## Helper lemmas -/

lemma head?_filter_eq_find? (p : α → Bool) :
    ∀ l : List α, (l.filter p).head? = l.find? p := by
  intro l
  induction l with
  | nil => rfl
  | cons a l ih =>
    cases hpa : p a with
    | true => simp [List.filter_cons, hpa, List.find?_cons_of_pos, ih]
    | false => simp [List.filter_cons, hpa, List.find?_cons_of_neg, ih]

lemma recogScan_fst (lowered : List Char) :
    ∀ (rules : List PatternRule) (hi cat : String),
      (recogScan lowered rules hi cat).1
        = (rules.filter fun r => ruleMatches r lowered).map toMatchR := by
  intro rules
  induction rules with
  | nil => intro hi cat; rfl
  | cons r rs ih =>
    intro hi cat
    cases h : ruleMatches r lowered with
    | true => simp [recogScan, h, List.filter_cons, ih]
    | false => simp [recogScan, h, List.filter_cons, ih]

lemma recogScan_noMatch (lowered : List Char) :
    ∀ (rules : List PatternRule) (hi cat : String),
      (∀ r ∈ rules, ruleMatches r lowered = false) →
      recogScan lowered rules hi cat = ([], hi, cat) := by
  intro rules
  induction rules with
  | nil => intro hi cat _; rfl
  | cons r rs ih =>
    intro hi cat hno
    have hr : ruleMatches r lowered = false := hno r (List.mem_cons_self r rs)
    simp only [recogScan, hr, Bool.false_eq_true, if_false]
    exact ih hi cat fun q hq => hno q (List.mem_cons_of_mem r hq)

/-! ## Claim theorems: pattern recognizer -/

/-- C3 (amended): on input text where no pattern rule's trigger matches, the
recognizer succeeds with an empty match list, `primary_pattern = none`,
`primary_category = "general"` — and `estimated_severity = "low"` (the
initial value of `highest_severity`), not `"medium"` as the claim states. -/
theorem C3_recognize_no_match (content : String)
    (h : ∀ r ∈ ERROR_PATTERNS, ruleMatches r (pyLower content) = false) :
    recognize_patterns content
      = ⟨true, [], none, "general", "low", 0⟩ := by
  simp only [recognize_patterns, recogScan_noMatch (pyLower content) ERROR_PATTERNS "low" "general" h]
  rfl

/-- C3 witness: the empty string matches no rule, and the amended result
follows by applying `C3_recognize_no_match` there. -/
theorem C3_recognize_no_match_witness :
    recognize_patterns "" = ⟨true, [], none, "general", "low", 0⟩ :=
  C3_recognize_no_match "" (by decide)

/-- C3 counterexample: on the empty string the recognizer returns an empty
match list and `primary_pattern = none` as claimed, but `estimated_severity`
is `"low"`, not the claimed `"medium"`. -/
theorem C3_counterexample :
    (recognize_patterns "").matchedPatterns = []
    ∧ (recognize_patterns "").primaryPattern = none
    ∧ (recognize_patterns "").success = true
    ∧ (recognize_patterns "").estimatedSeverity ≠ "medium" := by
  decide

/-- C10: `primary_pattern` is the name of the first matching rule in the
pattern table's declaration order (`matched_patterns[0]`), not of the
highest-severity matching rule; on text matching `device_not_found` (medium)
before `io_error` (high), `primary_pattern` names the medium-severity
hardware rule while `estimated_severity`/`primary_category` come from the
later, higher-severity filesystem rule. -/
theorem C10_primary_pattern_order :
    (∀ content : String,
      (recognize_patterns content).primaryPattern
        = (ERROR_PATTERNS.find? fun r => ruleMatches r (pyLower content)).map (·.name))
    ∧ (recognize_patterns "Device not found, then I/O error").primaryPattern
        = some "device_not_found"
    ∧ (recognize_patterns "Device not found, then I/O error").estimatedSeverity = "high"
    ∧ (recognize_patterns "Device not found, then I/O error").primaryCategory = "filesystem"
    ∧ (ERROR_PATTERNS.find? fun r => r.name == "device_not_found").map (·.severity)
        = some "medium" := by
  refine ⟨fun content => ?_, by decide, by decide, by decide, by decide⟩
  simp only [recognize_patterns, recogScan_fst, List.head?_map,
    ← head?_filter_eq_find?, Option.map_map]
  rfl

/-! ## Helper lemmas: retry loop -/

lemma chatGo_all_fail (o : Nat → AttemptOutcome) (m : Nat) :
    ∀ fuel attempt, 1 ≤ fuel → attempt + fuel = m →
      (∀ i, attempt ≤ i → i < m → isRetryableFailure (o i) = true) →
      ∃ r, chatGo o m attempt fuel = some r
        ∧ r.success = false ∧ r.attemptsMade = m ∧ r.tokensRecorded = none := by
  intro fuel
  induction fuel with
  | zero => omega
  | succ f ih =>
    intro attempt _ hsum hfail
    have hattempt : isRetryableFailure (o attempt) = true :=
      hfail attempt le_rfl (by omega)
    cases ho : o attempt with
    | ok t => rw [ho] at hattempt; simp [isRetryableFailure] at hattempt
    | connError => rw [ho] at hattempt; simp [isRetryableFailure] at hattempt
    | httpError code =>
      by_cases hlast : attempt = m - 1
      · subst hlast
        refine ⟨⟨false, m - 1 + 1, none, some "HTTP error"⟩, ?_, rfl, ?_, rfl⟩
        · simp [chatGo, ho]
        · show m - 1 + 1 = m
          omega
      · obtain ⟨r, hr, h1, h2, h3⟩ := ih (attempt + 1) (by omega) (by omega)
          (fun i hi1 hi2 => hfail i (by omega) hi2)
        refine ⟨r, ?_, h1, h2, h3⟩
        simp only [chatGo, ho, if_neg hlast]
        exact hr
    | timeout =>
      by_cases hlast : attempt = m - 1
      · subst hlast
        refine ⟨⟨false, m - 1 + 1, none, some "Request timeout"⟩, ?_, rfl, ?_, rfl⟩
        · simp [chatGo, ho]
        · show m - 1 + 1 = m
          omega
      · obtain ⟨r, hr, h1, h2, h3⟩ := ih (attempt + 1) (by omega) (by omega)
          (fun i hi1 hi2 => hfail i (by omega) hi2)
        refine ⟨r, ?_, h1, h2, h3⟩
        simp only [chatGo, ho, if_neg hlast]
        exact hr

lemma chatGo_first_ok (o : Nat → AttemptOutcome) (m k : Nat) (t : Nat)
    (hk : k < m) (hko : o k = .ok t) :
    ∀ fuel attempt, attempt + fuel = m → attempt ≤ k →
      (∀ i, attempt ≤ i → i < k → isRetryableFailure (o i) = true) →
      chatGo o m attempt fuel = some ⟨true, k + 1, some t, none⟩ := by
  intro fuel
  induction fuel with
  | zero => omega
  | succ f ih =>
    intro attempt hsum hak hfail
    by_cases hek : attempt = k
    · subst hek
      simp [chatGo, hko]
    · have hlt : attempt < k := lt_of_le_of_ne hak hek
      have hattempt : isRetryableFailure (o attempt) = true :=
        hfail attempt le_rfl hlt
      have hnotlast : ¬ attempt = m - 1 := by omega
      cases ho : o attempt with
      | ok t' => rw [ho] at hattempt; simp [isRetryableFailure] at hattempt
      | connError => rw [ho] at hattempt; simp [isRetryableFailure] at hattempt
      | httpError code =>
        simp only [chatGo, ho, if_neg hnotlast]
        exact ih (attempt + 1) (by omega) (by omega)
          (fun i hi1 hi2 => hfail i (by omega) hi2)
      | timeout =>
        simp only [chatGo, ho, if_neg hnotlast]
        exact ih (attempt + 1) (by omega) (by omega)
          (fun i hi1 hi2 => hfail i (by omega) hi2)

lemma chatGo_first_connError (o : Nat → AttemptOutcome) (m k : Nat)
    (hk : k < m) (hko : o k = .connError) :
    ∀ fuel attempt, attempt + fuel = m → attempt ≤ k →
      (∀ i, attempt ≤ i → i < k → isRetryableFailure (o i) = true) →
      chatGo o m attempt fuel = some ⟨false, k + 1, none, some "connection error"⟩ := by
  intro fuel
  induction fuel with
  | zero => omega
  | succ f ih =>
    intro attempt hsum hak hfail
    by_cases hek : attempt = k
    · subst hek
      simp [chatGo, hko]
    · have hlt : attempt < k := lt_of_le_of_ne hak hek
      have hattempt : isRetryableFailure (o attempt) = true :=
        hfail attempt le_rfl hlt
      have hnotlast : ¬ attempt = m - 1 := by omega
      cases ho : o attempt with
      | ok t' => rw [ho] at hattempt; simp [isRetryableFailure] at hattempt
      | connError => rw [ho] at hattempt; simp [isRetryableFailure] at hattempt
      | httpError code =>
        simp only [chatGo, ho, if_neg hnotlast]
        exact ih (attempt + 1) (by omega) (by omega)
          (fun i hi1 hi2 => hfail i (by omega) hi2)
      | timeout =>
        simp only [chatGo, ho, if_neg hnotlast]
        exact ih (attempt + 1) (by omega) (by omega)
          (fun i hi1 hi2 => hfail i (by omega) hi2)

lemma chatGo_fail_no_tokens (o : Nat → AttemptOutcome) (m : Nat) :
    ∀ fuel attempt r, chatGo o m attempt fuel = some r → r.success = false →
      r.tokensRecorded = none := by
  intro fuel
  induction fuel with
  | zero => intro attempt r hr; simp [chatGo] at hr
  | succ f ih =>
    intro attempt r hr hfalse
    cases ho : o attempt with
    | ok t =>
      simp only [chatGo, ho] at hr
      have h := Option.some.inj hr
      subst h
      simp at hfalse
    | connError =>
      simp only [chatGo, ho] at hr
      have h := Option.some.inj hr
      subst h
      rfl
    | httpError code =>
      simp only [chatGo, ho] at hr
      by_cases hlast : attempt = m - 1
      · rw [if_pos hlast] at hr
        have h := Option.some.inj hr
        subst h
        rfl
      · rw [if_neg hlast] at hr
        exact ih (attempt + 1) r hr hfalse
    | timeout =>
      simp only [chatGo, ho] at hr
      by_cases hlast : attempt = m - 1
      · rw [if_pos hlast] at hr
        have h := Option.some.inj hr
        subst h
        rfl
      · rw [if_neg hlast] at hr
        exact ih (attempt + 1) r hr hfalse

/-! ## Claim theorems: AIClient retries and status accounting -/

/-- C1 (amended): with `maxRetries ≥ 1`, when every attempt fails with a
non-2xx status or a timeout, `_make_chat_request` makes exactly `maxRetries`
attempts in total (so `maxRetries - 1` retries after the first) and returns
`success = false`; when attempt `k` returns HTTP 200 after retryable failures,
it returns `success = true` immediately after `k + 1` attempts; and a
network-level connection error is NOT retried like a non-2xx response — it
aborts at once with `success = false`. -/
theorem C1_retry_counts (m : Nat) (o : Nat → AttemptOutcome) (hm : 1 ≤ m) :
    ((∀ i, i < m → isRetryableFailure (o i) = true) →
      ∃ r, make_chat_request m o = some r
        ∧ r.success = false ∧ r.attemptsMade = m)
    ∧ (∀ k t, k < m → (∀ i, i < k → isRetryableFailure (o i) = true) →
        o k = .ok t →
        make_chat_request m o = some ⟨true, k + 1, some t, none⟩)
    ∧ (∀ k, k < m → (∀ i, i < k → isRetryableFailure (o i) = true) →
        o k = .connError →
        make_chat_request m o = some ⟨false, k + 1, none, some "connection error"⟩) := by
  refine ⟨fun hfail => ?_, fun k t hk hpre hok => ?_, fun k hk hpre hconn => ?_⟩
  · obtain ⟨r, hr, h1, h2, _⟩ := chatGo_all_fail o m m 0 hm (by omega)
      (fun i _ hi => hfail i hi)
    exact ⟨r, hr, h1, h2⟩
  · exact chatGo_first_ok o m k t hk hok m 0 (by omega) (by omega)
      (fun i _ hi => hpre i hi)
  · exact chatGo_first_connError o m k hk hconn m 0 (by omega) (by omega)
      (fun i _ hi => hpre i hi)

/-- C1 witness: instantiates `C1_retry_counts` at `maxRetries = 3` with every
attempt failing HTTP 500 — exactly 3 attempts happen and the call reports
failure. -/
theorem C1_retry_counts_witness :
    ∃ r, make_chat_request 3 (fun _ => AttemptOutcome.httpError 500) = some r
      ∧ r.success = false ∧ r.attemptsMade = 3 :=
  (C1_retry_counts 3 (fun _ => AttemptOutcome.httpError 500) (by norm_num)).1
    (fun i _ => rfl)

/-- C1 counterexample: with the default `maxRetries = 3` and every attempt
failing HTTP 500, only 3 attempts are made — not the claimed
`maxRetries + 1 = 4`; moreover a connection error gives up after a single
attempt instead of being retried like a 500 (which gets 3 attempts). -/
theorem C1_counterexample :
    ((make_chat_request 3 fun _ => AttemptOutcome.httpError 500).map
        ChatRes.attemptsMade = some 3)
    ∧ ((make_chat_request 3 fun _ => AttemptOutcome.httpError 500).map
        ChatRes.attemptsMade ≠ some 4)
    ∧ ((make_chat_request 3 fun _ => AttemptOutcome.connError).map
        ChatRes.attemptsMade = some 1)
    ∧ ((make_chat_request 3 fun _ => AttemptOutcome.connError).map
        ChatRes.success = some false) := by
  decide

/-- C8 (amended): only a successful (HTTP 200) chat attempt updates the
`OpenAIStatus` row — `_update_usage_stats` bumps the call count, adds the
tokens used and an estimated cost of `tokens * 0.00002`, and leaves the
connectivity flag, last error and last-success timestamp untouched; a failed
chat request leaves the row entirely unchanged (error message and
connectivity-false recording happen only in `check_connection`, not here). -/
theorem C8_status_updates (m : Nat) (o : Nat → AttemptOutcome)
    (st : OpenAIStatusRec) :
    (∀ k t, k < m → (∀ i, i < k → isRetryableFailure (o i) = true) →
      o k = .ok t →
      (make_chat_request_status m o st).2 = update_usage_stats st t
      ∧ (update_usage_stats st t).totalApiCalls = st.totalApiCalls + 1
      ∧ (update_usage_stats st t).totalTokensUsed = st.totalTokensUsed + t
      ∧ (update_usage_stats st t).estimatedTotalCost
          = st.estimatedTotalCost + (t : ℚ) * (2 / 100000)
      ∧ (update_usage_stats st t).isConnected = st.isConnected
      ∧ (update_usage_stats st t).lastErrorMessage = st.lastErrorMessage
      ∧ (update_usage_stats st t).lastSuccessfulCall = st.lastSuccessfulCall)
    ∧ (∀ r, make_chat_request m o = some r → r.success = false →
      (make_chat_request_status m o st).2 = st) := by
  constructor
  · intro k t hk hpre hok
    have hreq : make_chat_request m o = some ⟨true, k + 1, some t, none⟩ :=
      chatGo_first_ok o m k t hk hok m 0 (by omega) (by omega)
        (fun i _ hi => hpre i hi)
    refine ⟨?_, rfl, rfl, rfl, rfl, rfl, rfl⟩
    simp [make_chat_request_status, hreq]
  · intro r hr hfalse
    have htok : r.tokensRecorded = none :=
      chatGo_fail_no_tokens o m m 0 r hr hfalse
    simp [make_chat_request_status, hr, htok]

/-- C8 witness: instantiates `C8_status_updates` with a success on the first
attempt carrying 100 tokens, starting from the zeroed status row. -/
theorem C8_status_updates_witness :
    (make_chat_request_status 3 (fun _ => AttemptOutcome.ok 100) stEx).2
      = update_usage_stats stEx 100
    ∧ (update_usage_stats stEx 100).totalApiCalls = stEx.totalApiCalls + 1
    ∧ (update_usage_stats stEx 100).totalTokensUsed = stEx.totalTokensUsed + 100 := by
  obtain ⟨h1, h2, h3, _⟩ := (C8_status_updates 3 (fun _ => AttemptOutcome.ok 100) stEx).1
    0 100 (by norm_num) (fun i hi => absurd hi (Nat.not_lt_zero i)) rfl
  exact ⟨h1, h2, h3⟩

/-- C8 counterexample: with every attempt failing HTTP 500, the chat request
reports failure yet the status row is untouched — the call count stays 0, the
connectivity flag stays `true` and no error message is recorded, contradicting
the claim that a failed call records the error and marks connectivity false. -/
theorem C8_counterexample :
    ((make_chat_request_status 3 (fun _ => AttemptOutcome.httpError 500) stEx).1.map
        ChatRes.success = some false)
    ∧ (make_chat_request_status 3 (fun _ => AttemptOutcome.httpError 500) stEx).2.isConnected
        = true
    ∧ (make_chat_request_status 3 (fun _ => AttemptOutcome.httpError 500) stEx).2.lastErrorMessage
        = none
    ∧ (make_chat_request_status 3 (fun _ => AttemptOutcome.httpError 500) stEx).2.totalApiCalls
        = 0 := by
  refine ⟨rfl, rfl, rfl, rfl⟩

/-! ## Claim theorems: analysis orchestration -/

/-- C7: `analyze_error_log` always leaves the analysis record in `completed`
or `failed`, never in `processing`: when no step raises, the record is
`completed` with an end timestamp, and when any of the pattern/summary/
solution steps raises an unrecoverable exception the record is `failed` with
the error message and an end timestamp. -/
theorem C7_status_lifecycle (crId model : String)
    (pat : StepOutcome RecognizeResult) (sum : StepOutcome SummaryResult)
    (sol : StepOutcome SolutionResult) :
    ((analyze_error_log crId model pat sum sol).1.status = "completed"
      ∨ (analyze_error_log crId model pat sum sol).1.status = "failed")
    ∧ (analyze_error_log crId model pat sum sol).1.status ≠ "processing"
    ∧ ((∃ msg, pat = .raised msg) ∨ (∃ msg, sum = .raised msg)
        ∨ (∃ msg, sol = .raised msg) →
      (analyze_error_log crId model pat sum sol).1.status = "failed"
      ∧ (analyze_error_log crId model pat sum sol).1.errorMessage.isSome = true
      ∧ (analyze_error_log crId model pat sum sol).1.hasEndTime = true)
    ∧ (∀ p s so, pat = .ok p → sum = .ok s → sol = .ok so →
      (analyze_error_log crId model pat sum sol).1.status = "completed"
      ∧ (analyze_error_log crId model pat sum sol).1.hasEndTime = true) := by
  rcases pat with p | mp
  · rcases sum with sQ | ms
    · rcases sol with soQ | mso
      · refine ⟨Or.inl rfl, by simp [analyze_error_log], ?_, fun _ _ _ _ _ _ => ⟨rfl, rfl⟩⟩
        rintro (⟨msg, h⟩ | ⟨msg, h⟩ | ⟨msg, h⟩) <;> simp at h
      · refine ⟨Or.inr rfl, by simp [analyze_error_log, analyzeFail], ?_, ?_⟩
        · intro _
          exact ⟨rfl, rfl, rfl⟩
        · intro p' s' so' _ _ hso
          simp at hso
    · refine ⟨Or.inr rfl, by simp [analyze_error_log, analyzeFail], ?_, ?_⟩
      · intro _
        exact ⟨rfl, rfl, rfl⟩
      · intro p' s' so' _ hs _
        simp at hs
  · refine ⟨Or.inr rfl, by simp [analyze_error_log, analyzeFail], ?_, ?_⟩
    · intro _
      exact ⟨rfl, rfl, rfl⟩
    · intro p' s' so' hp _ _
      simp at hp

/-- C7 witness: a run whose summary step raises is recorded `failed` with an
error message and end timestamp, by `C7_status_lifecycle`. -/
theorem C7_status_lifecycle_witness :
    (analyze_error_log "CR1" "gpt-4o-mini" (.ok (recognize_patterns "kernel panic"))
        (.raised "boom") (.ok ⟨true, [], 0⟩)).1.status = "failed"
    ∧ (analyze_error_log "CR1" "gpt-4o-mini" (.ok (recognize_patterns "kernel panic"))
        (.raised "boom") (.ok ⟨true, [], 0⟩)).1.errorMessage.isSome = true :=
  let h := (C7_status_lifecycle "CR1" "gpt-4o-mini"
    (.ok (recognize_patterns "kernel panic")) (.raised "boom")
    (.ok ⟨true, [], 0⟩)).2.2.1 (Or.inr (Or.inl ⟨"boom", rfl⟩))
  ⟨h.1, h.2.1⟩

/-- C2 (amended): when the summarize step reports `success = false`,
`analyze_error_log` attaches nothing in its place — `Summary` stays NULL and
`Confidence` stays at its column default 0 (no pattern-derived fallback
summary, no lower fixed confidence) — and when the solution step reports
`success = false` no solutions are attached (no generic remediation list).
The record still completes, carrying only the heuristic pattern fields; the
pattern-derived fallback summary and generic fallback solutions exist in
`GenAIService.generate_summary` / `suggest_solutions` (backend/services.py),
not in `analyze_error_log`. -/
theorem C2_no_fallback_attached (crId model content : String)
    (s : SummaryResult) (so : SolutionResult) (hs : s.success = false) :
    (analyze_error_log crId model (.ok (recognize_patterns content))
        (.ok s) (.ok so)).1.summary = none
    ∧ (analyze_error_log crId model (.ok (recognize_patterns content))
        (.ok s) (.ok so)).1.confidence = 0
    ∧ (so.success = false →
        (analyze_error_log crId model (.ok (recognize_patterns content))
          (.ok s) (.ok so)).1.solutions = none)
    ∧ (analyze_error_log crId model (.ok (recognize_patterns content))
        (.ok s) (.ok so)).1.status = "completed"
    ∧ (analyze_error_log crId model (.ok (recognize_patterns content))
        (.ok s) (.ok so)).1.errorPattern = (recognize_patterns content).primaryPattern
    ∧ (analyze_error_log crId model (.ok (recognize_patterns content))
        (.ok s) (.ok so)).1.estimatedSeverity
        = some (recognize_patterns content).estimatedSeverity := by
  have hp : (recognize_patterns content).success = true := rfl
  cases hso : so.success <;>
    simp [analyze_error_log, hp, hs, hso]

/-- C2 witness: concrete failing summarize and solution steps on a
kernel-panic log, via `C2_no_fallback_attached`. -/
theorem C2_no_fallback_attached_witness :
    (analyze_error_log "CR1" "gpt-4o-mini" (.ok (recognize_patterns "kernel panic"))
        (.ok ⟨false, "", 0, [], 0⟩) (.ok ⟨false, [], 0⟩)).1.summary = none
    ∧ (analyze_error_log "CR1" "gpt-4o-mini" (.ok (recognize_patterns "kernel panic"))
        (.ok ⟨false, "", 0, [], 0⟩) (.ok ⟨false, [], 0⟩)).1.solutions = none :=
  let h := C2_no_fallback_attached "CR1" "gpt-4o-mini" "kernel panic"
    ⟨false, "", 0, [], 0⟩ ⟨false, [], 0⟩ rfl
  ⟨h.1, h.2.2.1 rfl⟩

/-- C2 counterexample: a run whose summarize and solution steps fail ends
`completed` with `Summary = NULL` and `SuggestedSolutions = NULL` — no
pattern-derived fallback summary string and no generic solutions are attached
to the record, contrary to the claim. -/
theorem C2_counterexample :
    (analyze_error_log "CR1" "gpt-4o-mini" (.ok (recognize_patterns "kernel panic"))
        (.ok ⟨false, "", 0, [], 0⟩) (.ok ⟨false, [], 0⟩)).1.summary = none
    ∧ (analyze_error_log "CR1" "gpt-4o-mini" (.ok (recognize_patterns "kernel panic"))
        (.ok ⟨false, "", 0, [], 0⟩) (.ok ⟨false, [], 0⟩)).1.solutions = none
    ∧ (analyze_error_log "CR1" "gpt-4o-mini" (.ok (recognize_patterns "kernel panic"))
        (.ok ⟨false, "", 0, [], 0⟩) (.ok ⟨false, [], 0⟩)).1.status = "completed"
    ∧ (analyze_error_log "CR1" "gpt-4o-mini" (.ok (recognize_patterns "kernel panic"))
        (.ok ⟨false, "", 0, [], 0⟩) (.ok ⟨false, [], 0⟩)).1.errorPattern
        = some "kernel_panic" := by
  refine ⟨rfl, rfl, rfl, ?_⟩
  decide

/-! ## Helper lemmas: similarity -/

lemma jaccardSpec_empty_left (B : Finset String) : jaccardSpec ∅ B = 0 := by
  simp [jaccardSpec]

lemma jaccardSpec_empty_right (A : Finset String) : jaccardSpec A ∅ = 0 := by
  simp [jaccardSpec]

lemma jaccardSpec_comm (A B : Finset String) : jaccardSpec A B = jaccardSpec B A := by
  rw [jaccardSpec, jaccardSpec, Finset.inter_comm, Finset.union_comm]

lemma wordSet_empty : wordSet "" = ∅ := rfl

lemma descTerm_eq_jaccard (d c : String) :
    descTerm (some d) (some c) = 4 / 10 * jaccardSpec (wordSet d) (wordSet c) := by
  by_cases h1 : d ≠ "" ∧ c ≠ ""
  · by_cases h2 : (wordSet d).card ≠ 0 ∧ (wordSet c).card ≠ 0
    · simp only [descTerm, if_pos h1, if_pos h2, jaccardSpec]
      ring
    · rcases not_and_or.mp h2 with h | h
      · have hd : wordSet d = ∅ := Finset.card_eq_zero.mp (not_not.mp h)
        simp [descTerm, if_pos h1, if_neg h2, hd, jaccardSpec_empty_left]
      · have hc : wordSet c = ∅ := Finset.card_eq_zero.mp (not_not.mp h)
        simp [descTerm, if_pos h1, if_neg h2, hc, jaccardSpec_empty_right]
  · rcases not_and_or.mp h1 with h | h
    · have hd : d = "" := not_not.mp h
      subst hd
      simp [descTerm, if_neg h1, wordSet_empty, jaccardSpec_empty_left]
    · have hc : c = "" := not_not.mp h
      subst hc
      simp [descTerm, if_neg h1, wordSet_empty, jaccardSpec_empty_right]

lemma descTerm_comm (x y : Option String) : descTerm x y = descTerm y x := by
  cases x with
  | none => cases y <;> rfl
  | some d =>
    cases y with
    | none => rfl
    | some c => rw [descTerm_eq_jaccard, descTerm_eq_jaccard, jaccardSpec_comm]

lemma ifEq_comm (x y : String) (v : ℚ) :
    (if x = y then v else 0) = (if y = x then v else 0) := by
  by_cases h : x = y
  · rw [if_pos h, if_pos h.symm]
  · rw [if_neg h, if_neg fun hh => h hh.symm]

lemma jaccard_ex : jaccardSpec (wordSet "a b d") (wordSet "a b c") = 1 / 2 := by
  have h1 : (wordSet "a b d" ∩ wordSet "a b c").card = 2 := by decide
  have h2 : (wordSet "a b d" ∪ wordSet "a b c").card = 4 := by decide
  rw [jaccardSpec, h1, h2]
  norm_num

lemma scoreEx : similarityScore curEx candEx = 4 / 5 := by
  have hd : candEx.description = some "a b d" := rfl
  have hc : curEx.description = some "a b c" := rfl
  simp only [similarityScore, hd, hc, descTerm_eq_jaccard, jaccard_ex]
  norm_num [curEx, candEx]

/-! ## Claim theorems: similarity scoring -/

/-- C4: for incidents whose descriptions are both present, the similarity
score is exactly 0.3 for an identical error name, plus 0.2 for an identical
module, plus 0.1 for an identical team, plus 0.4 times the Jaccard similarity
of the two descriptions' lowercase word sets; in particular, sharing all three
fields with descriptions of Jaccard overlap 1/2 scores exactly 0.8. -/
theorem C4_score_formula (cur lg : LogEntry) (d c : String)
    (hd : lg.description = some d) (hc : cur.description = some c) :
    (similarityScore cur lg
      = (if lg.errorName = cur.errorName then 3 / 10 else 0)
        + (if lg.module = cur.module then 2 / 10 else 0)
        + (if lg.teamName = cur.teamName then 1 / 10 else 0)
        + 4 / 10 * jaccardSpec (wordSet d) (wordSet c))
    ∧ (lg.errorName = cur.errorName → lg.module = cur.module →
       lg.teamName = cur.teamName →
       jaccardSpec (wordSet d) (wordSet c) = 1 / 2 →
       similarityScore cur lg = 8 / 10) := by
  have hform : similarityScore cur lg
      = (if lg.errorName = cur.errorName then 3 / 10 else 0)
        + (if lg.module = cur.module then 2 / 10 else 0)
        + (if lg.teamName = cur.teamName then 1 / 10 else 0)
        + 4 / 10 * jaccardSpec (wordSet d) (wordSet c) := by
    rw [similarityScore, hd, hc, descTerm_eq_jaccard]
  refine ⟨hform, fun h1 h2 h3 hJ => ?_⟩
  rw [hform, if_pos h1, if_pos h2, if_pos h3, hJ]
  norm_num

/-- C4 witness: the concrete pair `curEx`/`candEx` (identical error name,
module and team; descriptions `"a b c"` and `"a b d"`, Jaccard 1/2) scores
exactly 0.8, by `C4_score_formula`. -/
theorem C4_score_formula_witness : similarityScore curEx candEx = 8 / 10 :=
  (C4_score_formula curEx candEx "a b d" "a b c" rfl rfl).2 rfl rfl rfl jaccard_ex

/-- C9: the similarity score is symmetric in the two incidents' contents, and
monotonic — overwriting any one of the candidate's error-name/module/team
fields with the current incident's value (making that field match) never
decreases the score. -/
theorem C9_symmetry_monotonicity :
    (∀ a b : LogEntry, similarityScore a b = similarityScore b a)
    ∧ (∀ cur lg : LogEntry,
        similarityScore cur lg
          ≤ similarityScore cur { lg with errorName := cur.errorName }
        ∧ similarityScore cur lg
          ≤ similarityScore cur { lg with module := cur.module }
        ∧ similarityScore cur lg
          ≤ similarityScore cur { lg with teamName := cur.teamName }) := by
  constructor
  · intro a b
    rw [similarityScore, similarityScore, ifEq_comm, descTerm_comm]
    rw [ifEq_comm b.module a.module, ifEq_comm b.teamName a.teamName]
  · intro cur lg
    refine ⟨?_, ?_, ?_⟩
    · show similarityScore cur lg
        ≤ (if cur.errorName = cur.errorName then (3 : ℚ) / 10 else 0)
          + (if lg.module = cur.module then 2 / 10 else 0)
          + (if lg.teamName = cur.teamName then 1 / 10 else 0)
          + descTerm lg.description cur.description
      rw [similarityScore, if_pos rfl]
      have h : (if lg.errorName = cur.errorName then (3 : ℚ) / 10 else 0) ≤ 3 / 10 := by
        split_ifs <;> norm_num
      linarith
    · show similarityScore cur lg
        ≤ (if lg.errorName = cur.errorName then (3 : ℚ) / 10 else 0)
          + (if cur.module = cur.module then 2 / 10 else 0)
          + (if lg.teamName = cur.teamName then 1 / 10 else 0)
          + descTerm lg.description cur.description
      rw [similarityScore, if_pos rfl]
      have h : (if lg.module = cur.module then (2 : ℚ) / 10 else 0) ≤ 2 / 10 := by
        split_ifs <;> norm_num
      linarith
    · show similarityScore cur lg
        ≤ (if lg.errorName = cur.errorName then (3 : ℚ) / 10 else 0)
          + (if lg.module = cur.module then 2 / 10 else 0)
          + (if cur.teamName = cur.teamName then 1 / 10 else 0)
          + descTerm lg.description cur.description
      rw [similarityScore, if_pos rfl]
      have h : (if lg.teamName = cur.teamName then (1 : ℚ) / 10 else 0) ≤ 1 / 10 := by
        split_ifs <;> norm_num
      linarith

/-- C6: every returned match's similarity score meets the threshold, the
returned list is sorted descending by its stored score and holds at most 10
entries, `total_found` counts all candidates meeting the threshold (uncapped),
and a pool whose every candidate scores below the threshold yields an empty
list with `total_found = 0`. -/
theorem C6_find_similar_bounds (cur : LogEntry) (logs : List LogEntry) (th : ℚ) :
    (∀ it ∈ (find_similar_logs cur logs th).similarLogs,
        th ≤ similarityScore cur it.entry)
    ∧ List.Sorted simGE (find_similar_logs cur logs th).similarLogs
    ∧ (find_similar_logs cur logs th).similarLogs.length ≤ 10
    ∧ (find_similar_logs cur logs th).totalFound
        = (logs.filter fun lg => th ≤ similarityScore cur lg).length
    ∧ ((∀ lg ∈ logs, similarityScore cur lg < th) →
        (find_similar_logs cur logs th).similarLogs = []
        ∧ (find_similar_logs cur logs th).totalFound = 0) := by
  refine ⟨?_, ?_, ?_, rfl, ?_⟩
  · intro it hit
    simp only [find_similar_logs] at hit
    have h1 := List.mem_of_mem_take hit
    have h2 := (List.perm_insertionSort simGE _).mem_iff.mp h1
    obtain ⟨lg, hlg, rfl⟩ := List.mem_map.mp h2
    exact of_decide_eq_true (List.mem_filter.mp hlg).2
  · exact List.Pairwise.sublist (List.take_sublist _ _)
      (List.sorted_insertionSort simGE _)
  · show (List.take 10 _).length ≤ 10
    rw [List.length_take]
    exact min_le_left _ _
  · intro hall
    have hfilter : (logs.filter fun lg => th ≤ similarityScore cur lg) = [] := by
      rw [List.filter_eq_nil_iff]
      intro lg hlg
      simp only [decide_eq_true_eq, not_le]
      exact hall lg hlg
    constructor
    · show (List.take 10 (List.insertionSort simGE (List.map _ _))) = []
      rw [hfilter]
      rfl
    · show (logs.filter fun lg => th ≤ similarityScore cur lg).length = 0
      rw [hfilter]
      rfl

/-- C6 witness: threshold 0.9 against the single candidate `candEx`, which
scores 0.8 against `curEx` — the returned list is empty and `total_found` is
0, by `C6_find_similar_bounds`. -/
theorem C6_find_similar_bounds_witness :
    (find_similar_logs curEx [candEx] (9 / 10)).similarLogs = []
    ∧ (find_similar_logs curEx [candEx] (9 / 10)).totalFound = 0 :=
  (C6_find_similar_bounds curEx [candEx] (9 / 10)).2.2.2.2 (by
    intro lg hlg
    rw [List.mem_singleton] at hlg
    subst hlg
    rw [scoreEx]
    norm_num)

lemma persistedEx :
    (find_similar_logs curEx [candEx] (7 / 10)).persisted
      = [⟨"A", "B", 4 / 5, "heuristic", "medium"⟩] := by
  have hle : (7 : ℚ) / 10 ≤ similarityScore curEx candEx := by
    rw [scoreEx]
    norm_num
  have hpass : ([candEx].filter fun lg => (7 : ℚ) / 10 ≤ similarityScore curEx lg)
      = [candEx] := by
    simp only [List.filter_cons, decide_eq_true_eq, if_pos hle]
    rfl
  have hcl : confidenceLevel (4 / 5) = "medium" := by
    rw [confidenceLevel, if_neg (by norm_num), if_pos (by norm_num)]
  show ([candEx].filter fun lg => (7 : ℚ) / 10 ≤ similarityScore curEx lg).map _
      = _
  rw [hpass, List.map_singleton, scoreEx, hcl]
  rfl

/-- C5 (amended): the persisted confidence tier uses strict thresholds —
`high` only for score strictly above 0.8, `medium` for score strictly above
0.6 and at most 0.8, `low` for score at most 0.6; in particular a score of
exactly 0.8 is persisted as `medium`, not `high`. -/
theorem C5_confidence_tiers (cur : LogEntry) (logs : List LogEntry) (th : ℚ)
    (m : MatchRec) (hm : m ∈ (find_similar_logs cur logs th).persisted) :
    ((8 : ℚ) / 10 < m.score → m.confidence = "high")
    ∧ ((6 : ℚ) / 10 < m.score → m.score ≤ 8 / 10 → m.confidence = "medium")
    ∧ (m.score ≤ (6 : ℚ) / 10 → m.confidence = "low") := by
  simp only [find_similar_logs] at hm
  obtain ⟨lg, hlg, rfl⟩ := List.mem_map.mp hm
  refine ⟨fun h => ?_, fun h1 h2 => ?_, fun h => ?_⟩
  · show confidenceLevel (similarityScore cur lg) = "high"
    rw [confidenceLevel, if_pos h]
  · show confidenceLevel (similarityScore cur lg) = "medium"
    rw [confidenceLevel, if_neg (not_lt.mpr h2), if_pos h1]
  · show confidenceLevel (similarityScore cur lg) = "low"
    rw [confidenceLevel, if_neg (not_lt.mpr (h.trans (by norm_num))),
      if_neg (not_lt.mpr h)]

/-- C5 witness: the match persisted for `curEx`/`candEx` (score exactly 0.8)
falls in the strict-medium band, by `C5_confidence_tiers`. -/
theorem C5_confidence_tiers_witness :
    (⟨"A", "B", 4 / 5, "heuristic", "medium"⟩ : MatchRec).confidence = "medium" :=
  (C5_confidence_tiers curEx [candEx] (7 / 10) ⟨"A", "B", 4 / 5, "heuristic", "medium"⟩
      (by rw [persistedEx]; exact List.mem_singleton_self _)).2.1
    (by norm_num) (by norm_num)

/-- C5 counterexample: a persisted match with score exactly 0.8 (so at least
0.8) carries confidence tier `medium`, contradicting the claimed `high` at the
0.8 boundary. -/
theorem C5_counterexample :
    (find_similar_logs curEx [candEx] (7 / 10)).persisted.map MatchRec.score = [4 / 5]
    ∧ (find_similar_logs curEx [candEx] (7 / 10)).persisted.map MatchRec.confidence
        = ["medium"]
    ∧ (8 : ℚ) / 10 ≤ 4 / 5
    ∧ "medium" ≠ "high" := by
  refine ⟨?_, ?_, by norm_num, by decide⟩ <;> rw [persistedEx] <;> rfl

end BugSeek
